import Mathlib

/-!
Verification of the build-orchestration command in `setup.py` (the `Make`
setuptools command of the cfac repository).

The orchestrator only sequences opaque external processes, so we embed it as
a trace semantics: every operation returns the list of externally observable
events it performs (process spawns, blocking waits, writes to the scripted
configure child input pipe, opening and closing of the scratch stdout sink)
together with an optional raised error (Python `ValueError`, or an exception
raised while writing to the pipe).  The outside world is an oracle `Env`
giving the exit status of each external command and telling whether a given
write to the scripted child input pipe raises.
-/

namespace CfacSetup

/-- Python `str.split()` with no argument: split on runs of whitespace,
discarding empty fields. -/
def pySplit (s : String) : List String :=
  ((s.toList.splitOnP Char.isWhitespace).filter (fun t => t ≠ [])).map
    (fun cs => String.mk cs)

/-- Errors the command can raise.  `valueError msg` embeds Python
`ValueError(msg)`; `writeError` stands for an exception raised by
`p.stdin.write` (for example a broken pipe). -/
inductive PyError where
  | valueError (message : String)
  | writeError
  deriving DecidableEq

/-- Externally observable events of one orchestration run. -/
inductive Event where
  /-- an external process is started with the given argv -/
  | spawn (argv : List String)
  /-- the process with the given argv is waited on and exits with `code` -/
  | wait (argv : List String) (code : Int)
  /-- `tempfile.TemporaryFile()`: the scratch stdout sink is acquired -/
  | openSink
  /-- `f.close()`: the scratch stdout sink is released -/
  | closeSink
  /-- `p.stdin.write(data)` on the scripted configure child input pipe -/
  | write (data : String)
  /-- `p.stdin.close()` on the scripted configure child input pipe (never
  emitted by the source; present so its absence is expressible) -/
  | closeStdin
  deriving DecidableEq

/-- Oracle for the outside world: the exit status each external command
would return, and whether a given write to the scripted child raises. -/
structure Env where
  exitCode : String → Int
  writeFails : String → Bool

/-- Sequential composition of two traced computations: the second runs only
when the first did not raise (Python statement sequencing). -/
def seqPhase (a b : List Event × Option PyError) : List Event × Option PyError :=
  match a with
  | (evs, some e) => (evs, some e)
  | (evs, none) => (evs ++ b.1, b.2)

/-- The argv of every process the trace spawned, in order. -/
def spawns : List Event → List (List String)
  | [] => []
  | Event.spawn a :: rest => a :: spawns rest
  | _ :: rest => spawns rest

/-- The argv of every process the trace waited on, in order. -/
def waits : List Event → List (List String)
  | [] => []
  | Event.wait a _ :: rest => a :: waits rest
  | _ :: rest => waits rest

/-- A trace in which every spawned process is immediately waited on to
completion before anything else happens. -/
inductive Paired : List Event → Prop
  | nil : Paired []
  | cons (a : List String) (code : Int) (rest : List Event) :
      Paired rest → Paired (Event.spawn a :: Event.wait a code :: rest)

/-- A trace in which every spawned process is immediately waited on to
completion before the next event, except that a spawn of the distinguished
argv `x` may go unwaited; writes and the sink events may occur freely. -/
inductive PairedExcept (x : List String) : List Event → Prop
  | nil : PairedExcept x []
  | pair (a : List String) (code : Int) (rest : List Event) :
      PairedExcept x rest → PairedExcept x (Event.spawn a :: Event.wait a code :: rest)
  | unwaited (rest : List Event) :
      PairedExcept x rest → PairedExcept x (Event.spawn x :: rest)
  | openS (rest : List Event) :
      PairedExcept x rest → PairedExcept x (Event.openSink :: rest)
  | closeS (rest : List Event) :
      PairedExcept x rest → PairedExcept x (Event.closeSink :: rest)
  | wr (d : String) (rest : List Event) :
      PairedExcept x rest → PairedExcept x (Event.write d :: rest)

namespace Make

/-- `finalize_options`: reject a set `agree_cpc` other than `"yes"` with
`ValueError("--agree-cpc should be yes. Given: " + value)`. -/
def finalize_options (agree_cpc : Option String) : Option PyError :=
  match agree_cpc with
  | none => none
  | some v =>
    if v ≠ "yes" then
      some (PyError.valueError ("--agree-cpc should be yes. Given: " ++ v))
    else none

/-- `_call`: for each command string, `subprocess.call(command.split())`
(spawn then blocking wait); raise `ValueError("Install failed at " + command)`
at the first non-zero exit status, skipping the remaining commands. -/
def _call (env : Env) : List String → List Event × Option PyError
  | [] => ([], none)
  | command :: rest =>
    let argv := pySplit command
    let code := env.exitCode command
    if code ≠ 0 then
      ([Event.spawn argv, Event.wait argv code],
       some (PyError.valueError ("Install failed at " ++ command)))
    else
      let r := _call env rest
      (Event.spawn argv :: Event.wait argv code :: r.1, r.2)

/-- The one Regenerate command. -/
def autoconfCmd : String := "autoconf -o configure ac-tools/configure.ac"

/-- The Configure command (both variants run the same command line). -/
def configureCmd : String := "./configure --prefix=$PWD/bin --with-cpc-modules"

/-- The Clean command. -/
def cleanCmd : String := "make clean"

/-- The Build commands, in order. -/
def makeCmds : List String := ["make", "make check", "make install"]

/-- `autoconf`: run the single Regenerate command through `_call`. -/
def autoconf (env : Env) : List Event × Option PyError :=
  _call env [autoconfCmd]

/-- `configure`: when `agree_cpc` is unset, run the configure command through
`_call`; otherwise open a scratch `TemporaryFile`, `Popen` the same command
with `stdin=PIPE, stdout=f`, write `b"yes\n"` then `b"\n"` to the child
stdin pipe, and close `f`.  There is no `try`/`finally`, so a raising write
skips `f.close()`; the child is neither waited on nor is `p.stdin` closed. -/
def configure (env : Env) (agree_cpc : Option String) :
    List Event × Option PyError :=
  match agree_cpc with
  | none => _call env [configureCmd]
  | some _ =>
    let argv := pySplit configureCmd
    if env.writeFails "yes\n" then
      ([Event.openSink, Event.spawn argv], some PyError.writeError)
    else if env.writeFails "\n" then
      ([Event.openSink, Event.spawn argv, Event.write "yes\n"],
       some PyError.writeError)
    else
      ([Event.openSink, Event.spawn argv, Event.write "yes\n",
        Event.write "\n", Event.closeSink], none)

/-- `make`: run `make`, `make check`, `make install` through `_call`. -/
def make (env : Env) : List Event × Option PyError :=
  _call env makeCmds

/-- `clean`: `code = subprocess.call("make clean".split())` — the exit status
is bound but never inspected, so no error is ever raised. -/
def clean (env : Env) : List Event × Option PyError :=
  let argv := pySplit cleanCmd
  ([Event.spawn argv, Event.wait argv (env.exitCode cleanCmd)], none)

/-- `run`: autoconf, then configure, then clean, then make, each starting
only when the previous one did not raise. -/
def run (env : Env) (agree_cpc : Option String) : List Event × Option PyError :=
  seqPhase (autoconf env)
    (seqPhase (configure env agree_cpc)
      (seqPhase (clean env) (make env)))

end Make

/-- The whole command as invoked by setuptools: option finalization first
(which can reject the option before any process starts), then `run`. -/
def Run (env : Env) (agree_cpc : Option String) : List Event × Option PyError :=
  match Make.finalize_options agree_cpc with
  | some e => ([], some e)
  | none => Make.run env agree_cpc

/-- An environment in which every command exits 0 and no write fails. -/
def env0 : Env := ⟨fun _ => 0, fun _ => false⟩

/-- Every command exits 1. -/
def envS1 : Env := ⟨fun _ => 1, fun _ => false⟩

/-- Every command exits 2. -/
def envS2 : Env := ⟨fun _ => 2, fun _ => false⟩

/-- Only `make check` fails, with exit status 2. -/
def envCheckFail : Env :=
  ⟨fun c => if c = "make check" then 2 else 0, fun _ => false⟩

/-- Only `make clean` fails, with exit status 2. -/
def envCleanFail : Env :=
  ⟨fun c => if c = Make.cleanCmd then 2 else 0, fun _ => false⟩

/-- Only the configure command fails, with exit status 5. -/
def envConfFail : Env :=
  ⟨fun c => if c = Make.configureCmd then 5 else 0, fun _ => false⟩

/-- All commands exit 0, but the first write to the scripted child raises. -/
def envWF : Env := ⟨fun _ => 0, fun d => d == "yes\n"⟩

/-! ## General lemmas about the trace semantics -/

theorem call_first_fail_eq (env : Env) (pre : List String) (c : String)
    (post : List String) (hpre : ∀ d ∈ pre, env.exitCode d = 0)
    (hc : env.exitCode c ≠ 0) :
    Make._call env (pre ++ c :: post) =
      ((pre.map (fun d => [Event.spawn (pySplit d), Event.wait (pySplit d) 0])).flatten
        ++ [Event.spawn (pySplit c), Event.wait (pySplit c) (env.exitCode c)],
       some (PyError.valueError ("Install failed at " ++ c))) := by
  induction pre with
  | nil => simp [Make._call, hc]
  | cons d rest ih =>
    have hd : env.exitCode d = 0 := hpre d (List.mem_cons_self d rest)
    have hrest : ∀ e ∈ rest, env.exitCode e = 0 :=
      fun e he => hpre e (List.mem_cons_of_mem d he)
    simp [Make._call, hd, ih hrest]

theorem call_all_success_eq (env : Env) (cmds : List String)
    (h : ∀ d ∈ cmds, env.exitCode d = 0) :
    Make._call env cmds =
      ((cmds.map (fun d => [Event.spawn (pySplit d), Event.wait (pySplit d) 0])).flatten,
       none) := by
  induction cmds with
  | nil => rfl
  | cons d rest ih =>
    have hd : env.exitCode d = 0 := h d (List.mem_cons_self d rest)
    have hrest : ∀ e ∈ rest, env.exitCode e = 0 :=
      fun e he => h e (List.mem_cons_of_mem d he)
    simp [Make._call, hd, ih hrest]

theorem spawns_append (a b : List Event) :
    spawns (a ++ b) = spawns a ++ spawns b := by
  induction a with
  | nil => rfl
  | cons e rest ih => cases e <;> simp [spawns, ih]

theorem waits_append (a b : List Event) :
    waits (a ++ b) = waits a ++ waits b := by
  induction a with
  | nil => rfl
  | cons e rest ih => cases e <;> simp [waits, ih]

theorem waits_call_subset (env : Env) (cmds : List String) :
    ∀ argv ∈ waits (Make._call env cmds).1, argv ∈ cmds.map pySplit := by
  induction cmds with
  | nil => intro argv h; simp [Make._call, waits] at h
  | cons d rest ih =>
    intro argv h
    by_cases hd : env.exitCode d ≠ 0
    · simp [Make._call, hd, waits] at h
      simp [h]
    · simp [Make._call, hd, waits] at h
      rcases h with h | h
      · simp [h]
      · exact List.mem_cons_of_mem _ (ih argv h)

theorem waits_configure_scripted (env : Env) (v : String) :
    waits (Make.configure env (some v)).1 = [] := by
  by_cases h1 : env.writeFails "yes\n" <;> by_cases h2 : env.writeFails "\n" <;>
    simp [Make.configure, h1, h2, waits]

theorem Paired.append {a b : List Event} (ha : Paired a) (hb : Paired b) :
    Paired (a ++ b) := by
  induction ha with
  | nil => simpa using hb
  | cons x code rest _ ih => exact Paired.cons x code _ ih

theorem paired_call (env : Env) (cmds : List String) :
    Paired (Make._call env cmds).1 := by
  induction cmds with
  | nil => exact Paired.nil
  | cons d rest ih =>
    by_cases hd : env.exitCode d ≠ 0
    · simp [Make._call, hd]
      exact Paired.cons _ _ _ Paired.nil
    · simp [Make._call, hd]
      exact Paired.cons _ _ _ ih

theorem paired_seqPhase {a b : List Event × Option PyError}
    (ha : Paired a.1) (hb : Paired b.1) : Paired (seqPhase a b).1 := by
  rcases a with ⟨ta, ra⟩
  cases ra with
  | none => simpa [seqPhase] using Paired.append ha hb
  | some e => simpa [seqPhase] using ha

theorem mem_waits_seqPhase {argv : List String} {a b : List Event × Option PyError}
    (h : argv ∈ waits (seqPhase a b).1) :
    argv ∈ waits a.1 ∨ argv ∈ waits b.1 := by
  rcases a with ⟨ta, ra⟩
  cases ra with
  | none =>
    simp [seqPhase, waits_append] at h
    simpa using h
  | some e => exact Or.inl h

theorem pairedExcept_append {x : List String} {a b : List Event}
    (ha : PairedExcept x a) (hb : PairedExcept x b) :
    PairedExcept x (a ++ b) := by
  induction ha with
  | nil => simpa using hb
  | pair c code rest _ ih => exact PairedExcept.pair c code _ ih
  | unwaited rest _ ih => exact PairedExcept.unwaited _ ih
  | openS rest _ ih => exact PairedExcept.openS _ ih
  | closeS rest _ ih => exact PairedExcept.closeS _ ih
  | wr d rest _ ih => exact PairedExcept.wr d _ ih

theorem Paired.toExcept {x : List String} {a : List Event} (ha : Paired a) :
    PairedExcept x a := by
  induction ha with
  | nil => exact PairedExcept.nil
  | cons c code rest _ ih => exact PairedExcept.pair c code _ ih

theorem pairedExcept_seqPhase {x : List String}
    {a b : List Event × Option PyError}
    (ha : PairedExcept x a.1) (hb : PairedExcept x b.1) :
    PairedExcept x (seqPhase a b).1 := by
  rcases a with ⟨ta, ra⟩
  cases ra with
  | none => simpa [seqPhase] using pairedExcept_append ha hb
  | some e => simpa [seqPhase] using ha

theorem pairedExcept_configure_scripted (env : Env) (v : String) :
    PairedExcept (pySplit Make.configureCmd) (Make.configure env (some v)).1 := by
  by_cases h1 : env.writeFails "yes\n"
  · simp [Make.configure, h1]
    exact PairedExcept.openS _ (PairedExcept.unwaited _ PairedExcept.nil)
  · by_cases h2 : env.writeFails "\n"
    · simp [Make.configure, h1, h2]
      exact PairedExcept.openS _ (PairedExcept.unwaited _
        (PairedExcept.wr _ _ PairedExcept.nil))
    · simp [Make.configure, h1, h2]
      exact PairedExcept.openS _ (PairedExcept.unwaited _
        (PairedExcept.wr _ _ (PairedExcept.wr _ _
          (PairedExcept.closeS _ PairedExcept.nil))))

theorem make_spawns_first (env : Env) :
    Event.spawn ["make"] ∈ (Make.make env).1 := by
  have hps : pySplit "make" = ["make"] := by decide
  by_cases hm : env.exitCode "make" ≠ 0 <;>
    simp [Make.make, Make.makeCmds, Make._call, hm, hps]

theorem run_decomp (env : Env) (agree : Option String)
    (hac : env.exitCode Make.autoconfCmd = 0)
    (hconf : (Make.configure env agree).2 = none) :
    Make.run env agree =
      ([Event.spawn (pySplit Make.autoconfCmd),
        Event.wait (pySplit Make.autoconfCmd) 0] ++
        ((Make.configure env agree).1 ++
          ([Event.spawn (pySplit Make.cleanCmd),
            Event.wait (pySplit Make.cleanCmd) (env.exitCode Make.cleanCmd)] ++
            (Make.make env).1)),
       (Make.make env).2) := by
  have hAe : Make.autoconf env =
      ([Event.spawn (pySplit Make.autoconfCmd),
        Event.wait (pySplit Make.autoconfCmd) 0], none) := by
    simp [Make.autoconf, Make._call, hac]
  rcases hCfg : Make.configure env agree with ⟨tc, rc⟩
  rw [hCfg] at hconf
  simp only at hconf
  subst hconf
  simp [Make.run, hAe, hCfg, seqPhase, Make.clean]

/-! ## Claims -/

/-- C1: with the license option unset and every external command exiting 0,
`Run` performs exactly the six commands, each spawned and then waited on, in
the order autoconf, configure, make clean, make, make check, make install,
and returns success. -/
theorem run_unset_all_success (env : Env) (h : ∀ c, env.exitCode c = 0) :
    Run env none =
      ([Event.spawn ["autoconf", "-o", "configure", "ac-tools/configure.ac"],
        Event.wait ["autoconf", "-o", "configure", "ac-tools/configure.ac"] 0,
        Event.spawn ["./configure", "--prefix=$PWD/bin", "--with-cpc-modules"],
        Event.wait ["./configure", "--prefix=$PWD/bin", "--with-cpc-modules"] 0,
        Event.spawn ["make", "clean"], Event.wait ["make", "clean"] 0,
        Event.spawn ["make"], Event.wait ["make"] 0,
        Event.spawn ["make", "check"], Event.wait ["make", "check"] 0,
        Event.spawn ["make", "install"], Event.wait ["make", "install"] 0],
       none) ∧
    spawns (Run env none).1 =
      [["autoconf", "-o", "configure", "ac-tools/configure.ac"],
       ["./configure", "--prefix=$PWD/bin", "--with-cpc-modules"],
       ["make", "clean"], ["make"], ["make", "check"], ["make", "install"]] := by
  have hc : ∀ cmds : List String, Make._call env cmds =
      ((cmds.map (fun d => [Event.spawn (pySplit d), Event.wait (pySplit d) 0])).flatten,
       none) :=
    fun cmds => call_all_success_eq env cmds (fun d _ => h d)
  have h1 : Run env none =
      ([Event.spawn ["autoconf", "-o", "configure", "ac-tools/configure.ac"],
        Event.wait ["autoconf", "-o", "configure", "ac-tools/configure.ac"] 0,
        Event.spawn ["./configure", "--prefix=$PWD/bin", "--with-cpc-modules"],
        Event.wait ["./configure", "--prefix=$PWD/bin", "--with-cpc-modules"] 0,
        Event.spawn ["make", "clean"], Event.wait ["make", "clean"] 0,
        Event.spawn ["make"], Event.wait ["make"] 0,
        Event.spawn ["make", "check"], Event.wait ["make", "check"] 0,
        Event.spawn ["make", "install"], Event.wait ["make", "install"] 0],
       none) := by
    simp [Run, Make.finalize_options, Make.run, Make.autoconf, Make.configure,
      Make.clean, Make.make, hc, h, seqPhase]
    decide
  refine ⟨h1, ?_⟩
  rw [h1]
  rfl

/-- C1 witness: the all-success environment realizes the hypothesis. -/
theorem run_unset_all_success_witness :
    Run env0 none =
      ([Event.spawn ["autoconf", "-o", "configure", "ac-tools/configure.ac"],
        Event.wait ["autoconf", "-o", "configure", "ac-tools/configure.ac"] 0,
        Event.spawn ["./configure", "--prefix=$PWD/bin", "--with-cpc-modules"],
        Event.wait ["./configure", "--prefix=$PWD/bin", "--with-cpc-modules"] 0,
        Event.spawn ["make", "clean"], Event.wait ["make", "clean"] 0,
        Event.spawn ["make"], Event.wait ["make"] 0,
        Event.spawn ["make", "check"], Event.wait ["make", "check"] 0,
        Event.spawn ["make", "install"], Event.wait ["make", "install"] 0],
       none) ∧
    spawns (Run env0 none).1 =
      [["autoconf", "-o", "configure", "ac-tools/configure.ac"],
       ["./configure", "--prefix=$PWD/bin", "--with-cpc-modules"],
       ["make", "clean"], ["make"], ["make", "check"], ["make", "install"]] :=
  run_unset_all_success env0 (fun _ => rfl)

/-- C2: whenever the license option is set to a value other than "yes",
option finalization rejects it with a ValueError carrying the offending
value, and the resulting run spawns no process at all (empty trace). -/
theorem run_rejects_invalid_option (env : Env) (v : String) (h : v ≠ "yes") :
    Run env (some v) =
      ([], some (PyError.valueError ("--agree-cpc should be yes. Given: " ++ v))) := by
  simp [Run, Make.finalize_options, h]

/-- C2 witness: the value "no" is rejected before any process starts. -/
theorem run_rejects_invalid_option_witness :
    Run env0 (some "no") =
      ([], some (PyError.valueError "--agree-cpc should be yes. Given: no")) :=
  run_rejects_invalid_option env0 "no" (by decide)

/-- C3: the shared sequence executor runs each command in list order as a
separate process, waiting on each; at the first command with a non-zero exit
status it raises a ValueError naming that command, and no later command in
the list is run (the trace stops at the failing command). -/
theorem call_aborts_at_first_failure (env : Env) (pre : List String)
    (c : String) (post : List String) (hpre : ∀ d ∈ pre, env.exitCode d = 0)
    (hc : env.exitCode c ≠ 0) :
    Make._call env (pre ++ c :: post) =
      ((pre.map (fun d => [Event.spawn (pySplit d), Event.wait (pySplit d) 0])).flatten
        ++ [Event.spawn (pySplit c), Event.wait (pySplit c) (env.exitCode c)],
       some (PyError.valueError ("Install failed at " ++ c))) :=
  call_first_fail_eq env pre c post hpre hc

/-- C3 witness: with only `make check` failing, the executor runs `make`,
then `make check`, raises naming `make check`, and never runs
`make install`. -/
theorem call_aborts_at_first_failure_witness :
    Make._call envCheckFail ["make", "make check", "make install"] =
      ([Event.spawn ["make"], Event.wait ["make"] 0,
        Event.spawn ["make", "check"], Event.wait ["make", "check"] 2],
       some (PyError.valueError "Install failed at make check")) :=
  call_aborts_at_first_failure envCheckFail ["make"] "make check"
    ["make install"] (by decide) (by decide)

/-- C6 counterexample: in the scripted configure path the child stdin pipe
is never closed — the trace ends with the scratch stdout sink being closed
instead, and contains no close of the child stdin. -/
theorem scripted_stdin_not_closed_cex :
    (Make.configure env0 (some "yes")).1 =
      [Event.openSink,
       Event.spawn ["./configure", "--prefix=$PWD/bin", "--with-cpc-modules"],
       Event.write "yes\n", Event.write "\n", Event.closeSink] ∧
    Event.closeStdin ∉ (Make.configure env0 (some "yes")).1 :=
  ⟨rfl, by decide⟩

/-- C6 (amended): with the option set and both writes succeeding, configure
writes exactly the two lines "yes\n" then "\n" to the child stdin pipe and
then closes the scratch stdout sink; the child stdin pipe itself is never
closed. -/
theorem scripted_configure_writes (env : Env) (v : String)
    (hw1 : env.writeFails "yes\n" = false)
    (hw2 : env.writeFails "\n" = false) :
    Make.configure env (some v) =
      ([Event.openSink,
        Event.spawn ["./configure", "--prefix=$PWD/bin", "--with-cpc-modules"],
        Event.write "yes\n", Event.write "\n", Event.closeSink], none) ∧
    Event.closeStdin ∉ (Make.configure env (some v)).1 := by
  have hps : pySplit Make.configureCmd =
      ["./configure", "--prefix=$PWD/bin", "--with-cpc-modules"] := by decide
  have h1 : Make.configure env (some v) =
      ([Event.openSink,
        Event.spawn ["./configure", "--prefix=$PWD/bin", "--with-cpc-modules"],
        Event.write "yes\n", Event.write "\n", Event.closeSink], none) := by
    simp [Make.configure, hw1, hw2, hps]
  refine ⟨h1, ?_⟩
  rw [h1]
  decide

/-- C6 witness: the all-success environment realizes the amended claim. -/
theorem scripted_configure_writes_witness :
    Make.configure env0 (some "yes") =
      ([Event.openSink,
        Event.spawn ["./configure", "--prefix=$PWD/bin", "--with-cpc-modules"],
        Event.write "yes\n", Event.write "\n", Event.closeSink], none) ∧
    Event.closeStdin ∉ (Make.configure env0 (some "yes")).1 :=
  scripted_configure_writes env0 "yes" rfl rfl

/-- C7 counterexample: two runs whose failing command exits with different
statuses (1 versus 2) raise exactly the same error, so the error cannot be
reporting the exit status; it only names the command. -/
theorem phase_error_lacks_status_cex :
    envS1.exitCode Make.autoconfCmd ≠ envS2.exitCode Make.autoconfCmd ∧
    (Run envS1 none).2 = (Run envS2 none).2 ∧
    (Run envS1 none).2 =
      some (PyError.valueError ("Install failed at " ++ Make.autoconfCmd)) :=
  ⟨by decide, rfl, rfl⟩

/-- C7 (amended): every fatal phase failure raised by the sequence executor
reports the failing command line in its message; the exit status does not
appear in the error (the message is a function of the command alone). -/
theorem call_error_names_command (env : Env) (pre : List String) (c : String)
    (post : List String) (hpre : ∀ d ∈ pre, env.exitCode d = 0)
    (hc : env.exitCode c ≠ 0) :
    (Make._call env (pre ++ c :: post)).2 =
      some (PyError.valueError ("Install failed at " ++ c)) := by
  rw [call_first_fail_eq env pre c post hpre hc]

/-- C7 witness: the failure of `make check` is reported naming that
command. -/
theorem call_error_names_command_witness :
    (Make._call envCheckFail ["make", "make check", "make install"]).2 =
      some (PyError.valueError "Install failed at make check") :=
  call_error_names_command envCheckFail ["make"] "make check"
    ["make install"] (by decide) (by decide)

/-- C9: with the first write to the scripted child raising, configure
propagates the write exception and the scratch stdout sink, although
acquired, is never closed — the code lacks a try/finally around the
writes. -/
theorem sink_not_closed_on_write_failure :
    Make.configure envWF (some "yes") =
      ([Event.openSink,
        Event.spawn ["./configure", "--prefix=$PWD/bin", "--with-cpc-modules"]],
       some PyError.writeError) ∧
    Event.openSink ∈ (Make.configure envWF (some "yes")).1 ∧
    Event.closeSink ∉ (Make.configure envWF (some "yes")).1 :=
  ⟨rfl, by decide, by decide⟩

/-- C10: both configure variants tokenize the command by splitting on
whitespace and hand exactly those tokens to the spawned process, so the
argument `--prefix=$PWD/bin` is passed literally with `$PWD` unexpanded. -/
theorem configure_argv_literal (env : Env) (v : String) :
    pySplit Make.configureCmd =
      ["./configure", "--prefix=$PWD/bin", "--with-cpc-modules"] ∧
    spawns (Make.configure env none).1 =
      [["./configure", "--prefix=$PWD/bin", "--with-cpc-modules"]] ∧
    spawns (Make.configure env (some v)).1 =
      [["./configure", "--prefix=$PWD/bin", "--with-cpc-modules"]] := by
  have hps : pySplit Make.configureCmd =
      ["./configure", "--prefix=$PWD/bin", "--with-cpc-modules"] := by decide
  refine ⟨hps, ?_, ?_⟩
  · by_cases hq : env.exitCode Make.configureCmd ≠ 0 <;>
      simp [Make.configure, Make._call, hq, spawns, hps]
  · by_cases h1 : env.writeFails "yes\n" <;> by_cases h2 : env.writeFails "\n" <;>
      simp [Make.configure, h1, h2, spawns, hps]

/-- C4: a non-zero exit status of `make clean` never makes the run fail:
compared with an otherwise identical environment in which `make clean`
exits 0, the overall result and the sequence of spawned processes are the
same, and (when the earlier phases succeed) the Build phase still runs. -/
theorem clean_failure_ignored (env envZ : Env) (agree : Option String)
    (hclean : env.exitCode Make.cleanCmd ≠ 0)
    (h : ∀ c, c ≠ Make.cleanCmd → envZ.exitCode c = env.exitCode c)
    (h0 : envZ.exitCode Make.cleanCmd = 0)
    (hw : envZ.writeFails = env.writeFails)
    (hfin : Make.finalize_options agree = none)
    (hac : env.exitCode Make.autoconfCmd = 0)
    (hconf : (Make.configure env agree).2 = none) :
    (Run env agree).2 = (Run envZ agree).2 ∧
    spawns (Run env agree).1 = spawns (Run envZ agree).1 ∧
    Event.spawn ["make"] ∈ (Run env agree).1 := by
  have hC : Make.configure envZ agree = Make.configure env agree := by
    cases agree with
    | none => simp [Make.configure, Make._call, h Make.configureCmd (by decide)]
    | some v => simp [Make.configure, hw]
  have hM : Make.make envZ = Make.make env := by
    simp [Make.make, Make.makeCmds, Make._call, h "make" (by decide),
      h "make check" (by decide), h "make install" (by decide)]
  have hacZ : envZ.exitCode Make.autoconfCmd = 0 := by
    rw [h Make.autoconfCmd (by decide)]; exact hac
  have hconfZ : (Make.configure envZ agree).2 = none := by rw [hC]; exact hconf
  have hd := run_decomp env agree hac hconf
  have hdZ := run_decomp envZ agree hacZ hconfZ
  rw [hC, hM] at hdZ
  have hrun : Run env agree = Make.run env agree := by simp [Run, hfin]
  have hrunZ : Run envZ agree = Make.run envZ agree := by simp [Run, hfin]
  rw [hrun, hrunZ, hd, hdZ]
  have hmk := make_spawns_first env
  refine ⟨rfl, ?_, ?_⟩
  · simp [spawns_append, spawns]
  · simp [List.mem_append, hmk]

/-- C4 witness: an environment in which only `make clean` fails (status 2),
compared with the all-success environment. -/
theorem clean_failure_ignored_witness :
    (Run envCleanFail none).2 = (Run env0 none).2 ∧
    spawns (Run envCleanFail none).1 = spawns (Run env0 none).1 ∧
    Event.spawn ["make"] ∈ (Run envCleanFail none).1 :=
  clean_failure_ignored envCleanFail env0 none (by decide)
    (fun c hc => by simp [env0, envCleanFail, hc]) rfl rfl rfl (by decide)
    (by decide)

/-- C5: with the license option set to "yes" and the two scripted writes
accepted, the run is completely unchanged when the configure child is given
any other exit status (the status is never consulted, so the scripted path
never raises on it), and Clean and Build both still run. -/
theorem scripted_run_ignores_configure_exit (env envX : Env)
    (h : ∀ c, c ≠ Make.configureCmd → envX.exitCode c = env.exitCode c)
    (hw : envX.writeFails = env.writeFails)
    (hac : env.exitCode Make.autoconfCmd = 0)
    (hw1 : env.writeFails "yes\n" = false)
    (hw2 : env.writeFails "\n" = false) :
    Run envX (some "yes") = Run env (some "yes") ∧
    Event.spawn ["make", "clean"] ∈ (Run env (some "yes")).1 ∧
    Event.spawn ["make"] ∈ (Run env (some "yes")).1 := by
  have hA : Make.autoconf envX = Make.autoconf env := by
    simp [Make.autoconf, Make._call, h Make.autoconfCmd (by decide)]
  have hC : Make.configure envX (some "yes") = Make.configure env (some "yes") := by
    simp [Make.configure, hw]
  have hM : Make.make envX = Make.make env := by
    simp [Make.make, Make.makeCmds, Make._call, h "make" (by decide),
      h "make check" (by decide), h "make install" (by decide)]
  have hCl : Make.clean envX = Make.clean env := by
    simp [Make.clean, h Make.cleanCmd (by decide)]
  have hconf : (Make.configure env (some "yes")).2 = none := by
    simp [Make.configure, hw1, hw2]
  have hd := run_decomp env (some "yes") hac hconf
  have hrun : Run env (some "yes") = Make.run env (some "yes") := rfl
  have hrunX : Run envX (some "yes") = Make.run envX (some "yes") := rfl
  have hmk := make_spawns_first env
  refine ⟨?_, ?_, ?_⟩
  · rw [hrun, hrunX]
    simp [Make.run, hA, hC, hM, hCl]
  · rw [hrun, hd]
    have : pySplit Make.cleanCmd = ["make", "clean"] := by decide
    simp [List.mem_append, this]
  · rw [hrun, hd]
    simp [List.mem_append, hmk]

/-- C5 witness: the all-success environment against one where the configure
command exits 5; the run is identical and Clean and Build still execute. -/
theorem scripted_run_ignores_configure_exit_witness :
    Run envConfFail (some "yes") = Run env0 (some "yes") ∧
    Event.spawn ["make", "clean"] ∈ (Run env0 (some "yes")).1 ∧
    Event.spawn ["make"] ∈ (Run env0 (some "yes")).1 :=
  scripted_run_ignores_configure_exit env0 envConfFail
    (fun c hc => by simp [envConfFail, env0, hc]) rfl rfl rfl rfl

/-- C8 counterexample: in the scripted run the configure child is spawned
but never waited on, and the `make clean` process is spawned later in the
same trace, so the two may run concurrently. -/
theorem scripted_child_never_waited_cex :
    (Run env0 (some "yes")).1 =
      [Event.spawn ["autoconf", "-o", "configure", "ac-tools/configure.ac"],
       Event.wait ["autoconf", "-o", "configure", "ac-tools/configure.ac"] 0,
       Event.openSink,
       Event.spawn ["./configure", "--prefix=$PWD/bin", "--with-cpc-modules"],
       Event.write "yes\n", Event.write "\n", Event.closeSink,
       Event.spawn ["make", "clean"], Event.wait ["make", "clean"] 0,
       Event.spawn ["make"], Event.wait ["make"] 0,
       Event.spawn ["make", "check"], Event.wait ["make", "check"] 0,
       Event.spawn ["make", "install"], Event.wait ["make", "install"] 0] ∧
    ["./configure", "--prefix=$PWD/bin", "--with-cpc-modules"] ∉
      waits (Run env0 (some "yes")).1 :=
  ⟨rfl, by decide⟩

/-- C8 (amended): in the interactive run every spawned process is
immediately waited on to completion before the next event; in every
scripted run the same spawn-then-wait discipline holds for every process
run through the sequence executor or Clean, while the configure child is
the only spawn allowed to go unwaited and indeed is never waited on; and
on the benign scripted path the `make clean` process and the whole Build
segment are spawned strictly after the unwaited configure spawn. -/
theorem run_wait_discipline (env : Env) (v : String) :
    Paired (Run env none).1 ∧
    PairedExcept (pySplit Make.configureCmd) (Run env (some v)).1 ∧
    pySplit Make.configureCmd ∉ waits (Run env (some v)).1 ∧
    (env.exitCode Make.autoconfCmd = 0 →
      env.writeFails "yes\n" = false →
      env.writeFails "\n" = false →
      (Run env (some "yes")).1 =
        [Event.spawn (pySplit Make.autoconfCmd),
         Event.wait (pySplit Make.autoconfCmd) 0,
         Event.openSink, Event.spawn (pySplit Make.configureCmd),
         Event.write "yes\n", Event.write "\n", Event.closeSink,
         Event.spawn (pySplit Make.cleanCmd),
         Event.wait (pySplit Make.cleanCmd) (env.exitCode Make.cleanCmd)] ++
          (Make.make env).1) := by
  refine ⟨?_, ?_, ?_, ?_⟩
  · have hrun : Run env none = Make.run env none := rfl
    rw [hrun]
    unfold Make.run
    apply paired_seqPhase (paired_call env [Make.autoconfCmd])
    apply paired_seqPhase (paired_call env [Make.configureCmd])
    apply paired_seqPhase
    · exact Paired.cons _ _ _ Paired.nil
    · exact paired_call env Make.makeCmds
  · by_cases hv : v = "yes"
    · subst hv
      have hrun : Run env (some "yes") = Make.run env (some "yes") := rfl
      rw [hrun]
      unfold Make.run
      apply pairedExcept_seqPhase (Paired.toExcept (paired_call env [Make.autoconfCmd]))
      apply pairedExcept_seqPhase (pairedExcept_configure_scripted env "yes")
      apply pairedExcept_seqPhase
      · exact Paired.toExcept (Paired.cons _ _ _ Paired.nil)
      · exact Paired.toExcept (paired_call env Make.makeCmds)
    · have hrun : Run env (some v) =
          ([], some (PyError.valueError ("--agree-cpc should be yes. Given: " ++ v))) := by
        simp [Run, Make.finalize_options, hv]
      rw [hrun]
      exact PairedExcept.nil
  · intro hmem
    by_cases hv : v = "yes"
    · subst hv
      have hrun : Run env (some "yes") = Make.run env (some "yes") := rfl
      rw [hrun] at hmem
      unfold Make.run at hmem
      rcases mem_waits_seqPhase hmem with hmem | hmem
      · have := waits_call_subset env [Make.autoconfCmd] _ hmem
        simp at this
        exact absurd this (by decide)
      rcases mem_waits_seqPhase hmem with hmem | hmem
      · rw [waits_configure_scripted] at hmem
        simp at hmem
      rcases mem_waits_seqPhase hmem with hmem | hmem
      · have : pySplit Make.configureCmd = pySplit Make.cleanCmd := by
          simpa [Make.clean, waits] using hmem
        exact absurd this (by decide)
      · have := waits_call_subset env Make.makeCmds _ hmem
        simp [Make.makeCmds] at this
        exact absurd this (by decide)
    · simp [Run, Make.finalize_options, hv, waits] at hmem
  · intro hac hw1 hw2
    have hconf : (Make.configure env (some "yes")).2 = none := by
      simp [Make.configure, hw1, hw2]
    have hcfg : (Make.configure env (some "yes")).1 =
        [Event.openSink, Event.spawn (pySplit Make.configureCmd),
         Event.write "yes\n", Event.write "\n", Event.closeSink] := by
      simp [Make.configure, hw1, hw2]
    have hrun : Run env (some "yes") = Make.run env (some "yes") := rfl
    rw [hrun, run_decomp env (some "yes") hac hconf]
    simp [hcfg]

/-- C8 witness: the all-success environment realizes the benign-path
hypotheses of the amended claim. -/
theorem run_wait_discipline_witness :
    Paired (Run env0 none).1 ∧
    PairedExcept (pySplit Make.configureCmd) (Run env0 (some "yes")).1 ∧
    pySplit Make.configureCmd ∉ waits (Run env0 (some "yes")).1 ∧
    (Run env0 (some "yes")).1 =
      [Event.spawn (pySplit Make.autoconfCmd),
       Event.wait (pySplit Make.autoconfCmd) 0,
       Event.openSink, Event.spawn (pySplit Make.configureCmd),
       Event.write "yes\n", Event.write "\n", Event.closeSink,
       Event.spawn (pySplit Make.cleanCmd),
       Event.wait (pySplit Make.cleanCmd) (env0.exitCode Make.cleanCmd)] ++
        (Make.make env0).1 :=
  ⟨(run_wait_discipline env0 "yes").1, (run_wait_discipline env0 "yes").2.1,
   (run_wait_discipline env0 "yes").2.2.1,
   (run_wait_discipline env0 "yes").2.2.2 rfl rfl rfl⟩

end CfacSetup
